import Mathlib

/-!
Verification development for the CIRSE library agent
(`cirse_agent.py` / `cirse_app.py`, versions `cirse_streamlit` and
`cirse_streamlit_v3`; the two agent versions agree on everything modelled
here, and line references below are to `cirse_streamlit_v3` unless noted).

The embedding is shallow: each Python function that the claims mention is
translated into a Lean function over explicit inputs.  Network and
filesystem effects are represented by explicit event traces, and each
fallible remote call (download, transcription, summarization) is a
parameter recording how that call would behave for the job at hand, so
that the control flow of the Python code — which calls run, in which
order, what is written, what is raised — is reproduced exactly.
-/

namespace Cirse

/-- Python-style result of a call: either the raised error or the value.
(`Except` with a derived decidable equality, so closed runs can be
settled by `decide`.) -/
inductive Res (ε α : Type) where
  | err : ε → Res ε α
  | ok : α → Res ε α
deriving DecidableEq, Repr

/-- Python truthiness of a string: `bool(s)` is `True` iff `s` is non-empty. -/
def pyTruthy (s : String) : Bool := s != ""

/-- The character class `[A-Za-z0-9]` of the regex in
`re.sub(r'[^A-Za-z0-9]+', '_', video.title)` (cirse_agent.py line 99). -/
def isAlnumChar (c : Char) : Bool :=
  (('A' ≤ c) && (c ≤ 'Z')) || (('a' ≤ c) && (c ≤ 'z')) || (('0' ≤ c) && (c ≤ '9'))

/-- `re.sub(r'[^A-Za-z0-9]+', '_', ·)` on a character list: every maximal
run of non-alphanumeric characters is replaced by a single `'_'`.  The
flag `inRun` records whether the previous character belonged to such a
run (so the run has already produced its `'_'`). -/
def collapse : List Char → Bool → List Char
  | [], _ => []
  | c :: cs, inRun =>
    if isAlnumChar c then c :: collapse cs false
    else if inRun then collapse cs true
    else '_' :: collapse cs true

/-- The slug of cirse_agent.py line 99:
`re.sub(r'[^A-Za-z0-9]+', '_', video.title)[:50]` (substitution first,
then truncation to the first 50 characters). -/
def slugL (t : List Char) : List Char := (collapse t false).take 50

/-- String-level slug derivation used by `process_video`. -/
def slugString (t : String) : String := String.mk (slugL t.data)

/-- `pathlib.PurePath.with_suffix` on a single path component: the part
of the name from its last dot on is replaced by `suf`; a name with no
dot, or whose only dot is its first character, keeps the whole name as
stem. -/
def withSuffixL (name suf : List Char) : List Char :=
  match name.reverse.dropWhile (fun c => c != '.') with
  | [] => name ++ suf
  | _ :: rest => if rest.isEmpty then name ++ suf else rest.reverse ++ suf

/-- `audio_path = out_dir / f"{slug}.mp3"` (line 99).  Paths are modelled
by their file name inside the fixed output directory. -/
def audioFile (title : String) : String :=
  String.mk (slugL title.data ++ ".mp3".data)

/-- `transcript_path = audio_path.with_suffix('.md')` (line 100). -/
def transcriptFile (title : String) : String :=
  String.mk (withSuffixL (slugL title.data ++ ".mp3".data) ".md".data)

/-- `notes_path = audio_path.with_suffix('.notes.md')` (line 101). -/
def notesFile (title : String) : String :=
  String.mk (withSuffixL (slugL title.data ++ ".mp3".data) ".notes.md".data)

/-- `VideoResult` (cirse_agent.py lines 45–50): one catalog entry, with
required `title`/`url` and optional `year`/`speaker` defaulting to `None`. -/
structure VideoResult where
  title : String
  url : String
  year : Option String := none
  speaker : Option String := none
deriving DecidableEq, Repr

/-- Events performed by `playwright_login` (cirse_agent.py lines 56–63),
in program order: page navigation, form fills, the submit click and the
network-idle wait. -/
inductive LoginEv where
  | goto (url : String)
  | fill (selector value : String)
  | click (selector : String)
  | waitIdle
deriving DecidableEq, Repr

/-- The only error `playwright_login` itself can raise on the modelled
inputs: `page.fill(selector, None)` raises a `TypeError`-style error when
the corresponding environment variable is unset (`os.getenv` returned
`None`).  The function has no credential check of its own, so it has no
configuration-error outcome at all. -/
inductive LoginErr where
  | fillNotStr (selector : String)
deriving DecidableEq, Repr

def loginUrl : String := "https://my.cirse.org"

/-- `playwright_login(page)` (cirse_agent.py lines 56–63).  The inputs
are the ambient `CIRSE_EMAIL` / `CIRSE_PASSWORD` values (`None` when the
environment variable is unset).  The result is the trace of page
operations in the order the code performs them, together with the raised
error, if any.  Note line 59: `page.goto(login_url)` runs first,
unconditionally — there is no credential validation anywhere in the
function. -/
def playwright_login (email password : Option String) :
    List LoginEv × Option LoginErr :=
  match email with
  | none => ([.goto loginUrl], some (.fillNotStr "input[name=\"email\"]"))
  | some e =>
    match password with
    | none => ([.goto loginUrl, .fill "input[name=\"email\"]" e],
               some (.fillNotStr "input[type=\"password\"]"))
    | some p => ([.goto loginUrl, .fill "input[name=\"email\"]" e,
                  .fill "input[type=\"password\"]" p,
                  .click "button[type=\"submit\"]", .waitIdle], none)

/-- The guard of the Streamlit caller (cirse_app.py v3 line 65):
`if not (CIRSE_EMAIL and CIRSE_PASSWORD and OPENAI_API_KEY and query)`
rejects the run before any agent function is invoked.  `True` means the
guard passes (all four fields non-empty under Python truthiness). -/
def searchGuardOk (email password apiKey query : String) : Bool :=
  pyTruthy email && pyTruthy password && pyTruthy apiKey && pyTruthy query

/-- One rendered `.search-result` element, with the four sub-elements the
extraction loop reads; `none` models a missing sub-element (for `title`
and the link, `query_selector_eval` would raise; for `year`/`speaker`
the `try`/`except` resolves it to `None`). -/
structure Card where
  title : Option String
  href : Option String
  year : Option String
  speaker : Option String
deriving DecidableEq, Repr

/-- The search page as `search_videos` observes it: `rendered = none`
means no `.search-result` element ever appears, so
`page.wait_for_selector('.search-result')` (line 69) times out; in
particular a query with zero results renders no such element.
`rendered = some cards` is the list the selector would match. -/
structure SearchPage where
  rendered : Option (List Card)
deriving DecidableEq, Repr

inductive SearchErr where
  /-- `wait_for_selector('.search-result')` timed out (line 69). -/
  | timeout
  /-- Line 70 subscripts the result of `page.query_selector_all(...)`
  before awaiting it; in the async API that value is a coroutine object,
  and `coroutine[:max_results]` raises
  `TypeError: 'coroutine' object is not subscriptable`. -/
  | coroutineSub
  /-- A required field (`.result-title` or the link) is missing from a
  rendered result element. -/
  | missingField
deriving DecidableEq, Repr

/-- `search_videos(page, query, max_results)` (cirse_agent.py lines
65–84) as written.  After the selector wait succeeds, line 70 evaluates
`page.query_selector_all('.search-result')[:max_results]`: `await` binds
less tightly than the subscript, so the slice is applied to the
un-awaited coroutine and raises a `TypeError` before the extraction loop
is reached.  Hence the function times out when nothing renders and
raises the `TypeError` otherwise; it never returns a result list. -/
def search_videos (page : SearchPage) (maxResults : Nat) :
    Res SearchErr (List VideoResult) :=
  match page.rendered with
  | none => .err .timeout
  | some _ =>
    let _ := maxResults
    .err .coroutineSub

/-- The body of the extraction loop (lines 72–83) applied to one card:
`title` and the link are required (`query_selector_eval` raises when the
selector matches nothing), while `year` and `speaker` are wrapped in
`try`/`except` blocks that resolve a missing sub-element to `None`. -/
def extractCard (c : Card) : Res SearchErr VideoResult :=
  match c.title with
  | none => .err .missingField
  | some t =>
    match c.href with
    | none => .err .missingField
    | some u => .ok { title := t, url := u, year := c.year, speaker := c.speaker }

/-- The extraction loop over a card list: the first missing required
field aborts the whole search; otherwise the records are produced in
page order. -/
def extractCards : List Card → Res SearchErr (List VideoResult)
  | [] => .ok []
  | c :: cs =>
    match extractCard c with
    | .err e => .err e
    | .ok r =>
      match extractCards cs with
      | .err e => .err e
      | .ok rs => .ok (r :: rs)

/-- The evident intent of `search_videos` — line 70 with the slice
applied to the awaited element list, i.e.
`(await page.query_selector_all('.search-result'))[:max_results]` —
followed by the extraction loop exactly as written.  This is what the
function's own docstring ("Returns top `max_results` search hits as
VideoResult objects") describes. -/
def search_videos_fixed (page : SearchPage) (maxResults : Nat) :
    Res SearchErr (List VideoResult) :=
  match page.rendered with
  | none => .err .timeout
  | some cards => extractCards (cards.take maxResults)

/-- Network/filesystem events of `process_video` (cirse_agent.py lines
97–138) in program order. -/
inductive PEv where
  /-- `_download_audio(video.url, audio_path)` (line 104): the yt-dlp
  download, which writes the audio file at `dest` when it succeeds. -/
  | download (url dest : String)
  /-- `openai.Audio.transcribe` on the downloaded file (lines 111–116). -/
  | transcribe (path : String)
  /-- `write_text` of a produced artifact (lines 119 and 136). -/
  | write (path content : String)
  /-- `openai.ChatCompletion.create` (lines 130–134). -/
  | chat
deriving DecidableEq, Repr

inductive PErr where
  /-- yt-dlp download failure. -/
  | download (msg : String)
  /-- `raise RuntimeError('OPENAI_API_KEY missing – …')` (line 108). -/
  | missingKey
  /-- Whisper call failure. -/
  | transcription (msg : String)
  /-- Chat-completion call failure. -/
  | summarization (msg : String)
deriving DecidableEq, Repr

/-- How the three remote calls of one job would behave: the download
outcome, the transcription outcome (with the transcript text on
success), and the summarization outcome (with the completion content on
success). -/
structure StageBehavior where
  dl : Res String Unit
  tr : Res String String
  sm : Res String String
deriving DecidableEq, Repr

/-- `if not OPENAI_API_KEY` (line 107): the key is falsy when the
environment variable is unset or empty. -/
def hasKey : Option String → Bool
  | none => false
  | some s => pyTruthy s

/-- `process_video(pw, base_url, video, out_dir)` (cirse_agent.py lines
97–138).  Program order, exactly as in the source: derive the three
paths from the title (lines 99–101); download the audio (line 104);
only then check `OPENAI_API_KEY` (lines 107–108) and raise the
missing-key `RuntimeError` if it is falsy; transcribe (lines 111–117)
and write the transcript file (line 119); request the summary
(lines 130–134) and write the notes file (line 136, content stripped);
return `(notes_path, transcript_path)` (line 138).  Nothing is ever
deleted, so artifacts written before a later stage fails stay in the
trace. -/
def process_video (key : Option String) (video : VideoResult)
    (b : StageBehavior) : List PEv × Res PErr (String × String) :=
  let audio := audioFile video.title
  let transcriptP := transcriptFile video.title
  let notesP := notesFile video.title
  match b.dl with
  | .err m => ([.download video.url audio], .err (.download m))
  | .ok _ =>
    if hasKey key then
      match b.tr with
      | .err m => ([.download video.url audio, .transcribe audio],
                   .err (.transcription m))
      | .ok t =>
        match b.sm with
        | .err m => ([.download video.url audio, .transcribe audio,
                      .write transcriptP t, .chat],
                     .err (.summarization m))
        | .ok s => ([.download video.url audio, .transcribe audio,
                     .write transcriptP t, .chat, .write notesP s.trim],
                    .ok (notesP, transcriptP))
    else ([.download video.url audio], .err .missingKey)

/-- One selected job: the catalog entry plus the behavior of its three
remote calls. -/
structure Job where
  video : VideoResult
  b : StageBehavior
deriving DecidableEq, Repr

/-- The processing loop `do_process` of the Streamlit app (cirse_app.py
v3 lines 100–109; v4 lines 93–99 is identical in the modelled respects):
`for n, idx in enumerate(picks, 1): await cirse_agent.process_video(…)`.
There is no `try`/`except` around the call, so the first exception
raised by `process_video` propagates out of the loop and the remaining
jobs are never started.  The result is the accumulated event trace, the
list of per-job return values of the jobs that completed (in input
order), and the propagated exception, if any. -/
def do_process (key : Option String) :
    List Job → List PEv × List (String × String) × Option PErr
  | [] => ([], [], none)
  | j :: js =>
    match process_video key j.video j.b with
    | (evs, .err e) => (evs, [], some e)
    | (evs, .ok p) =>
      ((evs ++ (do_process key js).1,
        p :: (do_process key js).2.1,
        (do_process key js).2.2))

/-- Paths of the `write` events of a trace, with the written content. -/
def writesOf : List PEv → List (String × String)
  | [] => []
  | .write p c :: rest => (p, c) :: writesOf rest
  | _ :: rest => writesOf rest

/-- Replay of the filesystem writes of a trace on a store mapping path
to current content; a later write to the same path overwrites the
earlier one, exactly as `write_text` does. -/
def runStore (evs : List PEv) (σ : String → Option String) :
    String → Option String :=
  match evs with
  | [] => σ
  | .write p c :: rest => runStore rest (fun q => if q = p then some c else σ q)
  | _ :: rest => runStore rest σ

/-! ### Helper lemmas about the slug and the derived paths -/

theorem isAlnumChar_ne_underscore {c : Char} (h : isAlnumChar c = true) :
    c ≠ '_' := by
  intro hc
  subst hc
  exact absurd h (by decide)

theorem mem_collapse (l : List Char) (b : Bool) :
    ∀ c ∈ collapse l b, isAlnumChar c = true ∨ c = '_' := by
  induction l generalizing b with
  | nil => simp [collapse]
  | cons a t ih =>
    intro c hc
    by_cases h : isAlnumChar a = true
    · simp only [collapse, h, if_true, List.mem_cons] at hc
      rcases hc with rfl | hc
      · exact Or.inl h
      · exact ih false c hc
    · cases b with
      | true =>
        simp only [collapse, h, if_false, Bool.false_eq_true, if_true] at hc
        exact ih true c hc
      | false =>
        simp only [collapse, h, if_false, Bool.false_eq_true, List.mem_cons] at hc
        rcases hc with rfl | hc
        · exact Or.inr rfl
        · exact ih true c hc

theorem collapse_true_head (l : List Char) :
    ∀ y ∈ (collapse l true).head?, y ≠ '_' := by
  induction l with
  | nil => simp [collapse]
  | cons a t ih =>
    by_cases h : isAlnumChar a = true
    · simp only [collapse, h, if_true, List.head?_cons, Option.mem_def,
        Option.some.injEq]
      intro y hy
      subst hy
      exact isAlnumChar_ne_underscore h
    · simpa [collapse, h] using ih

theorem chain'_collapse (l : List Char) (b : Bool) :
    List.Chain' (fun a c => ¬(a = '_' ∧ c = '_')) (collapse l b) := by
  induction l generalizing b with
  | nil => simp [collapse]
  | cons a t ih =>
    by_cases h : isAlnumChar a = true
    · simp only [collapse, h, if_true]
      rw [List.chain'_cons']
      refine ⟨?_, ih false⟩
      intro y _ hcon
      exact isAlnumChar_ne_underscore h hcon.1
    · cases b with
      | true => simpa [collapse, h] using ih true
      | false =>
        simp only [collapse, h, if_false, Bool.false_eq_true]
        rw [List.chain'_cons']
        refine ⟨?_, ih true⟩
        intro y hy hcon
        exact collapse_true_head t y hy hcon.2

theorem withSuffixL_mp3_cons (c : Char) (s suf : List Char) :
    withSuffixL ((c :: s) ++ ".mp3".data) suf = (c :: s) ++ suf := by
  unfold withSuffixL
  have h1 : ((c :: s) ++ ".mp3".data).reverse
      = '3' :: 'p' :: 'm' :: '.' :: (c :: s).reverse := by
    rw [List.reverse_append]
    rfl
  rw [h1]
  have h2 : List.dropWhile (fun x => x != '.')
      ('3' :: 'p' :: 'm' :: '.' :: (c :: s).reverse) = '.' :: (c :: s).reverse := rfl
  rw [h2]
  have h3 : ((c :: s).reverse).isEmpty = false := by
    rw [List.reverse_cons]
    rcases s.reverse with _ | ⟨d, u⟩ <;> rfl
  simp only [h3, Bool.false_eq_true, if_false, List.reverse_reverse]

theorem notesFile_ne_transcriptFile (t : String) :
    notesFile t ≠ transcriptFile t := by
  unfold notesFile transcriptFile
  cases h : slugL t.data with
  | nil =>
    decide
  | cons c s =>
    rw [withSuffixL_mp3_cons, withSuffixL_mp3_cons]
    intro he
    have hd : (c :: s) ++ ".notes.md".data = (c :: s) ++ ".md".data :=
      congrArg String.data he
    have hlen := congrArg List.length hd
    simp only [List.length_append] at hlen
    have h9 : (".notes.md".data).length = 9 := rfl
    have h3 : (".md".data).length = 2 + 1 := rfl
    rw [h9, h3] at hlen
    omega

/-! ### C8 -/

/-- C8: the slug derivation is a pure function of the title (so two
derivations from the same title agree), every character it produces is
alphanumeric or the separator `'_'`, no two adjacent separators occur
(non-alphanumeric runs are collapsed to a single `'_'`), and the result
is at most 50 characters long. -/
theorem slug_deterministic_safe_bounded (t : String) :
    slugString t = slugString t ∧
    (∀ c ∈ (slugString t).data, isAlnumChar c = true ∨ c = '_') ∧
    List.Chain' (fun a c => ¬(a = '_' ∧ c = '_')) (slugString t).data ∧
    (slugString t).length ≤ 50 := by
  refine ⟨rfl, ?_, ?_, ?_⟩
  · intro c hc
    have hc2 : c ∈ collapse t.data false := List.take_subset 50 _ hc
    exact mem_collapse t.data false c hc2
  · exact (chain'_collapse t.data false).take 50
  · show (slugL t.data).length ≤ 50
    rw [slugL, List.length_take]
    exact Nat.min_le_left 50 _

/-- Witness for C8: the theorem applied to the concrete title
`"Case Review: TIPS!!"`, discharging the membership hypothesis of the
character-class conjunct at the character `'C'`. -/
theorem slug_deterministic_safe_bounded_witness :
    (slugString "Case Review: TIPS!!").length ≤ 50 ∧
    (isAlnumChar 'C' = true ∨ 'C' = '_') :=
  ⟨(slug_deterministic_safe_bounded "Case Review: TIPS!!").2.2.2,
   (slug_deterministic_safe_bounded "Case Review: TIPS!!").2.1 'C' (by decide)⟩

/-! ### C4 -/

/-- C4, counterexample: for the title `"Case Review: TIPS!!"` the slug
the code derives is `"Case_Review_TIPS_"` — the trailing run `"!!"` is
also replaced by a separator, so the claimed slug `"Case_Review_TIPS"`
is wrong. -/
theorem slug_tips_counterexample :
    slugString "Case Review: TIPS!!" ≠ "Case_Review_TIPS" ∧
    slugString "Case Review: TIPS!!" = "Case_Review_TIPS_" := by
  constructor
  · decide
  · rfl

/-- C4, amended: for the title `"Case Review: TIPS!!"` the derived slug
is `"Case_Review_TIPS_"` and the three output files are
`Case_Review_TIPS_.mp3`, `Case_Review_TIPS_.md` and
`Case_Review_TIPS_.notes.md`. -/
theorem slug_tips_paths :
    slugString "Case Review: TIPS!!" = "Case_Review_TIPS_" ∧
    audioFile "Case Review: TIPS!!" = "Case_Review_TIPS_.mp3" ∧
    transcriptFile "Case Review: TIPS!!" = "Case_Review_TIPS_.md" ∧
    notesFile "Case Review: TIPS!!" = "Case_Review_TIPS_.notes.md" := by
  refine ⟨rfl, rfl, rfl, rfl⟩

/-! ### C10 -/

/-- C10: the slug derivation is not injective — the distinct titles
`"A!"` and `"A?"` collide on the slug `"A_"`, hence on all three output
paths, and in a batch that processes both jobs the transcript written by
the first job is silently overwritten by the second: replaying the batch
trace leaves the second job's transcript at the shared path, whereas the
first job alone had written its own transcript there. -/
theorem slug_collision_overwrites :
    ("A!" : String) ≠ "A?" ∧
    slugString "A!" = slugString "A?" ∧
    audioFile "A!" = audioFile "A?" ∧
    transcriptFile "A!" = transcriptFile "A?" ∧
    notesFile "A!" = notesFile "A?" ∧
    runStore (process_video (some "k") ⟨"A!", "u1", none, none⟩
        ⟨.ok (), .ok "T1", .ok "N1"⟩).1
      (fun _ => none) (transcriptFile "A!") = some "T1" ∧
    runStore (do_process (some "k")
        [⟨⟨"A!", "u1", none, none⟩, ⟨.ok (), .ok "T1", .ok "N1"⟩⟩,
         ⟨⟨"A?", "u2", none, none⟩, ⟨.ok (), .ok "T2", .ok "N2"⟩⟩]).1
      (fun _ => none) (transcriptFile "A!") = some "T2" := by
  refine ⟨by decide, rfl, rfl, rfl, rfl, by decide, by decide⟩

/-! ### C2 -/

/-- C2, counterexample: with a present email and an empty password,
`playwright_login` completes with no error at all, and its first action
is the navigation to the login surface — it neither fails with a
configuration error nor avoids the network. -/
theorem login_empty_password_counterexample :
    (playwright_login (some "user@example.org") (some "")).2 = none ∧
    (playwright_login (some "user@example.org") (some "")).1.head?
      = some (.goto loginUrl) :=
  ⟨rfl, rfl⟩

/-- C2, amended: `playwright_login` performs no credential validation.
Its first action is always the `page.goto` of the login surface,
whatever the credentials; with present (possibly empty) credential
strings it completes without raising anything, and with an absent
credential the only failure is the `page.fill` type error, raised after
the navigation.  The sole empty-field rejection in the program is the
Streamlit guard, which stops a run with an empty password before the
agent is invoked — via `st.error`/`st.stop`, not a configuration
error. -/
theorem login_no_credential_check (email password : Option String) :
    (playwright_login email password).1.head? = some (.goto loginUrl) ∧
    (∀ e p : String, (playwright_login (some e) (some p)).2 = none) ∧
    (∀ e k q : String, searchGuardOk e "" k q = false) := by
  refine ⟨?_, fun e p => rfl, fun e k q => ?_⟩
  · cases email with
    | none => rfl
    | some e =>
      cases password with
      | none => rfl
      | some p => rfl
  · have h0 : pyTruthy "" = false := rfl
    simp [searchGuardOk, h0]

/-- Witness for C2's amended theorem at concrete credentials. -/
theorem login_no_credential_check_witness :
    (playwright_login (some "a@b.org") none).1.head? = some (.goto loginUrl) :=
  (login_no_credential_check (some "a@b.org") none).1

/-! ### C5 -/

/-- C5, code bug: on the scenario page rendering two complete result
elements, with `maxResults = 3`, `search_videos` as written raises the
`TypeError` of line 70 (the slice is applied to the un-awaited
coroutine) instead of returning the two results its docstring promises;
the slice-after-await version of the same line returns exactly those 2
results, in page order, with no error. -/
theorem search_two_results_bug :
    search_videos ⟨some [⟨some "R1", some "h1", some "2021", some "S1"⟩,
                         ⟨some "R2", some "h2", some "2022", some "S2"⟩]⟩ 3
      = .err .coroutineSub ∧
    search_videos_fixed ⟨some [⟨some "R1", some "h1", some "2021", some "S1"⟩,
                               ⟨some "R2", some "h2", some "2022", some "S2"⟩]⟩ 3
      = .ok [⟨"R1", "h1", some "2021", some "S1"⟩,
             ⟨"R2", "h2", some "2022", some "S2"⟩] :=
  ⟨rfl, rfl⟩

/-! ### C6 -/

/-- C6, counterexample: when zero results exist the `.search-result`
selector never renders, so `search_videos` fails with the timeout error
— it does not return an empty sequence as a normal outcome. -/
theorem search_zero_results_counterexample :
    search_videos ⟨none⟩ 10 = .err .timeout ∧
    search_videos ⟨none⟩ 10 ≠ .ok [] :=
  ⟨rfl, by decide⟩

/-- C6, amended: a query with zero results renders no `.search-result`
element, so `search_videos` — as written and also in its
slice-after-await version — fails with the timeout error rather than
returning an empty sequence; and as written the function never returns
a result list at all. -/
theorem search_zero_results_timeout (page : SearchPage) (n : Nat) :
    (page.rendered = none →
      search_videos page n = .err .timeout ∧
      search_videos_fixed page n = .err .timeout) ∧
    (∀ rs, search_videos page n ≠ .ok rs) := by
  constructor
  · intro h
    constructor
    · unfold search_videos
      rw [h]
    · unfold search_videos_fixed
      rw [h]
  · intro rs hc
    unfold search_videos at hc
    cases hr : page.rendered <;> rw [hr] at hc <;> exact Res.noConfusion hc

/-- Witness for C6's amended theorem on a concrete zero-result page. -/
theorem search_zero_results_timeout_witness :
    search_videos ⟨none⟩ 3 = .err .timeout ∧
    search_videos_fixed ⟨none⟩ 3 = .err .timeout :=
  (search_zero_results_timeout ⟨none⟩ 3).1 rfl

/-! ### C7 -/

/-- C7, code bug: for a rendered result element whose `.result-year`
sub-element is missing, `search_videos` as written never constructs any
record — the `TypeError` of line 70 fires before the extraction loop —
while the loop body itself (lines 72–83) resolves the missing year to
`none` without failing the record, and the slice-after-await version of
the search returns that record. -/
theorem search_optional_fields_bug :
    search_videos ⟨some [⟨some "T7", some "h7", none, some "S7"⟩]⟩ 10
      = .err .coroutineSub ∧
    extractCard ⟨some "T7", some "h7", none, some "S7"⟩
      = .ok ⟨"T7", "h7", none, some "S7"⟩ ∧
    search_videos_fixed ⟨some [⟨some "T7", some "h7", none, some "S7"⟩]⟩ 10
      = .ok [⟨"T7", "h7", none, some "S7"⟩] :=
  ⟨rfl, rfl, rfl⟩

/-! ### C3 -/

/-- C3, counterexample: with the API key absent and a job whose download
succeeds, `process_video` performs the audio download first — the trace
begins with the download event — and only then raises the missing-key
error; the failure does not precede the download. -/
theorem missing_key_counterexample :
    process_video none ⟨"Lecture C", "uC", none, none⟩
        ⟨.ok (), .ok "T", .ok "N"⟩
      = ([.download "uC" "Lecture_C.mp3"], .err .missingKey) ∧
    (process_video none ⟨"Lecture C", "uC", none, none⟩
        ⟨.ok (), .ok "T", .ok "N"⟩).1.head?
      = some (.download "uC" "Lecture_C.mp3") :=
  ⟨rfl, rfl⟩

/-- C3, amended: with the API key absent (unset or empty) and the job's
download succeeding, `process_video` raises the missing-key
`RuntimeError` after the audio download and before the transcription
call: the trace is exactly the download event, and no transcription or
summarization call is made. -/
theorem missing_key_after_download (key : Option String) (v : VideoResult)
    (b : StageBehavior) (hk : hasKey key = false) (hdl : b.dl = .ok ()) :
    process_video key v b
      = ([.download v.url (audioFile v.title)], .err .missingKey) := by
  unfold process_video
  rw [hdl, hk]
  simp

/-- Witness for C3's amended theorem at a concrete job with unset key. -/
theorem missing_key_after_download_witness :
    process_video none ⟨"L", "u", none, none⟩ ⟨.ok (), .err "x", .ok "N"⟩
      = ([.download "u" (audioFile "L")], .err .missingKey) :=
  missing_key_after_download none ⟨"L", "u", none, none⟩
    ⟨.ok (), .err "x", .ok "N"⟩ rfl rfl

/-! ### C9 -/

/-- C9: artifacts are written only on success of their producing stage.
With the key present and the download succeeding: a transcription
failure leaves a trace with no write event at all (neither transcript
nor notes); a summarization failure leaves exactly the transcript write
in place (nothing deletes it) and the notes path unwritten; and in every
run, a write to the transcript path implies the transcription succeeded
and a write to the notes path implies the summarization succeeded. -/
theorem artifacts_only_on_success (key : Option String) (v : VideoResult)
    (b : StageBehavior) (hk : hasKey key = true) (hdl : b.dl = .ok ()) :
    (∀ m, b.tr = .err m →
      process_video key v b
        = ([.download v.url (audioFile v.title), .transcribe (audioFile v.title)],
           .err (.transcription m)) ∧
      writesOf (process_video key v b).1 = []) ∧
    (∀ t m, b.tr = .ok t → b.sm = .err m →
      writesOf (process_video key v b).1 = [(transcriptFile v.title, t)] ∧
      notesFile v.title ∉ (writesOf (process_video key v b).1).map Prod.fst) ∧
    (∀ p c, PEv.write p c ∈ (process_video key v b).1 →
      (p = transcriptFile v.title → ∃ t0, b.tr = .ok t0) ∧
      (p = notesFile v.title → ∃ s0, b.sm = .ok s0)) := by
  obtain ⟨dl, tr, sm⟩ := b
  simp only at hdl
  subst hdl
  refine ⟨?_, ?_, ?_⟩
  · intro m htr
    simp only at htr
    subst htr
    constructor
    · unfold process_video
      rw [hk]
      simp
    · unfold process_video
      rw [hk]
      simp [writesOf]
  · intro t m htr hsm
    simp only at htr hsm
    subst htr
    subst hsm
    constructor
    · unfold process_video
      rw [hk]
      simp [writesOf]
    · unfold process_video
      rw [hk]
      simp [writesOf]
      exact notesFile_ne_transcriptFile v.title
  · intro p c hmem
    cases tr with
    | err m =>
      unfold process_video at hmem
      rw [hk] at hmem
      simp at hmem
    | ok t =>
      cases sm with
      | err m =>
        unfold process_video at hmem
        rw [hk] at hmem
        simp at hmem
        refine ⟨fun _ => ⟨t, rfl⟩, fun hp => ?_⟩
        exact absurd (hp.symm.trans hmem.1) (notesFile_ne_transcriptFile v.title)
      | ok s =>
        exact ⟨fun _ => ⟨t, rfl⟩, fun _ => ⟨s, rfl⟩⟩

/-- Witness for C9 at concrete jobs: one whose transcription fails (no
write at all) and one whose summarization fails (exactly the transcript
write). -/
theorem artifacts_only_on_success_witness :
    writesOf (process_video (some "k") ⟨"L", "u", none, none⟩
        ⟨.ok (), .err "timeout", .ok "N"⟩).1 = [] ∧
    writesOf (process_video (some "k") ⟨"L", "u", none, none⟩
        ⟨.ok (), .ok "T", .err "rate"⟩).1 = [(transcriptFile "L", "T")] :=
  ⟨((artifacts_only_on_success (some "k") ⟨"L", "u", none, none⟩
      ⟨.ok (), .err "timeout", .ok "N"⟩ rfl rfl).1 "timeout" rfl).2,
   ((artifacts_only_on_success (some "k") ⟨"L", "u", none, none⟩
      ⟨.ok (), .ok "T", .err "rate"⟩ rfl rfl).2.1 "T" "rate" rfl rfl).1⟩

/-! ### C1 -/

/-- C1, counterexample: a batch of two jobs whose first job's download
fails yields no outcome for the second job at all — the exception
propagates out of the loop, the completed-job list is empty instead of
having one entry per job, and no event of the second job ever occurs. -/
theorem batch_abort_counterexample :
    do_process (some "k")
        [⟨⟨"Lecture A", "uA", none, none⟩, ⟨.err "404", .ok "", .ok ""⟩⟩,
         ⟨⟨"Lecture B", "uB", none, none⟩, ⟨.ok (), .ok "TB", .ok "NB"⟩⟩]
      = ([.download "uA" "Lecture_A.mp3"], [], some (.download "404")) ∧
    (do_process (some "k")
        [⟨⟨"Lecture A", "uA", none, none⟩, ⟨.err "404", .ok "", .ok ""⟩⟩,
         ⟨⟨"Lecture B", "uB", none, none⟩, ⟨.ok (), .ok "TB", .ok "NB"⟩⟩]).2.1.length
      ≠ 2 :=
  ⟨rfl, by decide⟩

/-- C1, amended: the processing loop handles jobs strictly in input
order and stops at the first failure: every job before the failing one
completes and contributes its pair of artifact paths, in order, and the
failing job's error propagates out of the loop, so the jobs after it are
never started and contribute no outcome. -/
theorem batch_ordered_until_failure (key : Option String) (pre : List Job)
    (f : Job) (rest : List Job) (e : PErr)
    (hpre : ∀ j ∈ pre, (process_video key j.video j.b).2
        = .ok (notesFile j.video.title, transcriptFile j.video.title))
    (hf : (process_video key f.video f.b).2 = .err e) :
    (do_process key (pre ++ f :: rest)).2.1
      = pre.map (fun j => (notesFile j.video.title, transcriptFile j.video.title)) ∧
    (do_process key (pre ++ f :: rest)).2.2 = some e := by
  induction pre with
  | nil =>
    rcases hP : process_video key f.video f.b with ⟨evs, res⟩
    rw [hP] at hf
    simp only at hf
    subst hf
    simp only [List.nil_append, List.map_nil]
    unfold do_process
    rw [hP]
    exact ⟨rfl, rfl⟩
  | cons j pre ih =>
    have hj := hpre j (List.mem_cons_self j pre)
    rcases hP : process_video key j.video j.b with ⟨evs, res⟩
    rw [hP] at hj
    simp only at hj
    subst hj
    have ih2 := ih (fun x hx => hpre x (List.mem_cons_of_mem j hx))
    simp only [List.cons_append, List.map_cons]
    unfold do_process
    rw [hP]
    exact ⟨by simp [ih2.1], ih2.2⟩

/-- Witness for C1's amended theorem: one succeeding job followed by a
job whose download fails. -/
theorem batch_ordered_until_failure_witness :
    (do_process (some "k")
        [⟨⟨"Lecture B", "uB", none, none⟩, ⟨.ok (), .ok "TB", .ok "NB"⟩⟩,
         ⟨⟨"Lecture A", "uA", none, none⟩, ⟨.err "404", .ok "", .ok ""⟩⟩]).2.1
      = [(notesFile "Lecture B", transcriptFile "Lecture B")] ∧
    (do_process (some "k")
        [⟨⟨"Lecture B", "uB", none, none⟩, ⟨.ok (), .ok "TB", .ok "NB"⟩⟩,
         ⟨⟨"Lecture A", "uA", none, none⟩, ⟨.err "404", .ok "", .ok ""⟩⟩]).2.2
      = some (.download "404") := by
  have h := batch_ordered_until_failure (some "k")
      [⟨⟨"Lecture B", "uB", none, none⟩, ⟨.ok (), .ok "TB", .ok "NB"⟩⟩]
      ⟨⟨"Lecture A", "uA", none, none⟩, ⟨.err "404", .ok "", .ok ""⟩⟩ []
      (.download "404") (by decide) (by decide)
  exact ⟨h.1, h.2⟩

end Cirse
